import Mathlib

/-!
Verification of the nsq-events publisher/connection engine
(davidpelaez/nsq-events, vendored bitly/go-nsq client).

Shallow embedding of:
  * the Message envelope codec (message.go: Message.Write / EncodeBytes,
    DecodeMessage),
  * the Conn read loop frame dispatch (conn.go: readLoop),
  * the IDENTIFY transport-upgrade handshake (conn.go: identify,
    upgradeTLS, upgradeDeflate, upgradeSnappy),
  * the Writer publish/transaction layer (nsq_writer: sendCommandAsync,
    connect, router, popTransaction, transactionCleanup).

Machine integers are modelled as Nat / Int with explicit `% 2^w` where
overflow matters; byte sequences are `List Nat` with each element a byte
value; fallible operations return Option / Except.
-/

deriving instance DecidableEq for Except

namespace NsqEvents

/-! ## Byte-level big-endian integer codec (encoding/binary BigEndian) -/

/-- Big-endian serialization of a natural number into `k` bytes,
as produced by the Go call binary.Write(w, binary.BigEndian, v) for a
`k`-byte unsigned integer (the value is implicitly taken mod 256^k). -/
def toBytesBE : Nat → Nat → List Nat
  | 0, _ => []
  | k + 1, n => toBytesBE k (n / 256) ++ [n % 256]

/-- Big-endian deserialization of a byte list into a natural number,
as performed by the Go call binary.Read(r, binary.BigEndian, &v) for an
unsigned integer. -/
def fromBytesBE (bs : List Nat) : Nat :=
  bs.foldl (fun acc b => acc * 256 + b) 0

theorem toBytesBE_length (k n : Nat) : (toBytesBE k n).length = k := by
  induction k generalizing n with
  | zero => rfl
  | succ k ih => simp [toBytesBE, ih]

theorem fromBytesBE_append_singleton (bs : List Nat) (b : Nat) :
    fromBytesBE (bs ++ [b]) = fromBytesBE bs * 256 + b := by
  simp [fromBytesBE, List.foldl_append]

theorem fromBytesBE_toBytesBE (k n : Nat) (h : n < 256 ^ k) :
    fromBytesBE (toBytesBE k n) = n := by
  induction k generalizing n with
  | zero =>
    simp [pow_zero] at h
    simp [toBytesBE, fromBytesBE, h]
  | succ k ih =>
    have hdiv : n / 256 < 256 ^ k := by
      rw [Nat.div_lt_iff_lt_mul (by norm_num : 0 < 256)]
      calc n < 256 ^ (k + 1) := h
        _ = 256 ^ k * 256 := by ring
    rw [toBytesBE, fromBytesBE_append_singleton, ih _ hdiv]
    omega

/-- Big-endian serialization of a signed 64-bit integer in two-complement
form, as produced by the Go binary.Write call for an int64 value. -/
def encInt64 (t : Int) : List Nat :=
  toBytesBE 8 (t % (2 ^ 64)).toNat

/-- Big-endian deserialization of 8 bytes into a signed 64-bit integer in
two-complement form, as performed by the Go binary.Read call for an int64
value. -/
def decInt64 (bs : List Nat) : Int :=
  let n := fromBytesBE bs
  if n < 2 ^ 63 then (n : Int) else (n : Int) - 2 ^ 64

theorem encInt64_length (t : Int) : (encInt64 t).length = 8 :=
  toBytesBE_length 8 _

theorem decInt64_encInt64 (t : Int)
    (hlo : -(2 ^ 63) ≤ t) (hhi : t < 2 ^ 63) :
    decInt64 (encInt64 t) = t := by
  have hmodge : 0 ≤ t % (2 ^ 64) := Int.emod_nonneg t (by norm_num)
  have hmodlt : t % (2 ^ 64) < 2 ^ 64 := Int.emod_lt_of_pos t (by norm_num)
  have hlt : (t % (2 ^ 64)).toNat < 256 ^ 8 := by
    have h : (256 : Nat) ^ 8 = 2 ^ 64 := by norm_num
    omega
  unfold decInt64 encInt64
  rw [fromBytesBE_toBytesBE 8 _ hlt]
  dsimp only
  have hcase : t % (2 ^ 64) = t ∨ t % (2 ^ 64) = t + 2 ^ 64 := by
    rcases le_or_lt 0 t with hpos | hneg
    · left
      omega
    · right
      omega
  rcases hcase with he | he <;> rw [he] at hmodge hmodlt ⊢ <;> split <;> omega

/-! ## Message envelope (go-nsq message.go) -/

/-- Message is the fundamental data type containing the id, body, and
metadata (message.go).  `Id` is a 16-byte sequence, `Body` an opaque
byte sequence, `Timestamp` a signed 64-bit nanosecond count, `Attempts`
an unsigned 16-bit counter; the bounds appear as hypotheses of the
theorems. -/
structure Message where
  Id : List Nat
  Body : List Nat
  Timestamp : Int
  Attempts : Nat
  deriving DecidableEq

/-- The number of bytes for a Message.Id (message.go: MsgIdLength). -/
def MsgIdLength : Nat := 16

/-- Message.Write / EncodeBytes (message.go): serializes timestamp
(8 bytes big-endian), attempts (2 bytes big-endian), the 16 id bytes,
then the raw body. -/
def Message.encodeBytes (m : Message) : List Nat :=
  encInt64 m.Timestamp ++ toBytesBE 2 m.Attempts ++ m.Id ++ m.Body

/-- DecodeMessage (message.go): reads an int64 timestamp, a uint16
attempts, 16 id bytes, and takes the remaining bytes as the body.
Each of binary.Read / io.ReadFull fails when fewer bytes remain than
needed, hence `none` exactly when fewer than 26 bytes are supplied. -/
def DecodeMessage (byteBuf : List Nat) : Option Message :=
  if byteBuf.length < 26 then none
  else some
    { Timestamp := decInt64 (byteBuf.take 8)
      Attempts := fromBytesBE ((byteBuf.drop 8).take 2)
      Id := (byteBuf.drop 10).take 16
      Body := byteBuf.drop 26 }

theorem encodeBytes_assoc (m : Message) :
    m.encodeBytes
      = encInt64 m.Timestamp
        ++ (toBytesBE 2 m.Attempts ++ (m.Id ++ m.Body)) := by
  simp [Message.encodeBytes]

theorem take_append_of_length (l1 l2 : List Nat) (n : Nat)
    (h : l1.length = n) : (l1 ++ l2).take n = l1 := by
  subst h
  exact List.take_left l1 l2

theorem drop_append_of_length (l1 l2 : List Nat) (n : Nat)
    (h : l1.length = n) : (l1 ++ l2).drop n = l2 := by
  subst h
  exact List.drop_left l1 l2

/-- C3: For every Message value, serializing it with Write/EncodeBytes and
then applying DecodeMessage to the produced bytes yields a Message whose
id, body, timestamp, and attempts fields equal those of the original.
The hypotheses state the representation invariants of the Go field types:
a 16-byte id, a uint16 attempts, an int64 timestamp. -/
theorem C3_message_roundtrip (m : Message) (hid : m.Id.length = 16)
    (hatt : m.Attempts < 2 ^ 16)
    (hlo : -(2 ^ 63) ≤ m.Timestamp) (hhi : m.Timestamp < 2 ^ 63) :
    DecodeMessage m.encodeBytes = some m := by
  have hA : (encInt64 m.Timestamp).length = 8 := encInt64_length _
  have hAt : (toBytesBE 2 m.Attempts).length = 2 := toBytesBE_length _ _
  have e1 := encodeBytes_assoc m
  have htake8 : m.encodeBytes.take 8 = encInt64 m.Timestamp := by
    rw [e1, take_append_of_length _ _ _ hA]
  have hdrop8 :
      m.encodeBytes.drop 8 = toBytesBE 2 m.Attempts ++ (m.Id ++ m.Body) := by
    rw [e1, drop_append_of_length _ _ _ hA]
  have htake2 : (m.encodeBytes.drop 8).take 2 = toBytesBE 2 m.Attempts := by
    rw [hdrop8, take_append_of_length _ _ _ hAt]
  have hdrop10 : m.encodeBytes.drop 10 = m.Id ++ m.Body := by
    have h : m.encodeBytes.drop 10 = (m.encodeBytes.drop 8).drop 2 := by
      rw [List.drop_drop]
    rw [h, hdrop8, drop_append_of_length _ _ _ hAt]
  have htake16 : (m.encodeBytes.drop 10).take 16 = m.Id := by
    rw [hdrop10, take_append_of_length _ _ _ hid]
  have hdrop26 : m.encodeBytes.drop 26 = m.Body := by
    have h : m.encodeBytes.drop 26 = (m.encodeBytes.drop 10).drop 16 := by
      rw [List.drop_drop]
    rw [h, hdrop10, drop_append_of_length _ _ _ hid]
  have hlen : ¬ m.encodeBytes.length < 26 := by
    rw [e1]
    simp [hA, hAt, hid]
    omega
  unfold DecodeMessage
  rw [if_neg hlen, htake8, htake2, htake16, hdrop26,
    decInt64_encInt64 _ hlo hhi,
    fromBytesBE_toBytesBE 2 _ (by norm_num at hatt ⊢; omega)]

/-- Witness for C3 at a concrete message: a 16-byte id of zeroes, body
[1, 2, 3], timestamp -5 nanoseconds, 7 attempts. -/
theorem C3_message_roundtrip_witness :
    (List.replicate 16 0).length = 16
      ∧ (7 : Nat) < 2 ^ 16
      ∧ -(2 ^ 63) ≤ (-5 : Int) ∧ (-5 : Int) < 2 ^ 63
      ∧ DecodeMessage (Message.encodeBytes ⟨List.replicate 16 0, [1, 2, 3], -5, 7⟩)
          = some ⟨List.replicate 16 0, [1, 2, 3], -5, 7⟩ :=
  ⟨by decide, by decide, by decide, by decide,
    C3_message_roundtrip ⟨List.replicate 16 0, [1, 2, 3], -5, 7⟩
      (by decide) (by decide) (by decide) (by decide)⟩

/-! ## Wire protocol constants -/

/-- Modelled from the spec: the frame-type tag values (the Go constants
live in a protocol source file that is not under src). Spec section 6:
frame types are response (0), error (1), message (2). -/
def FrameTypeResponse : Int := 0

/-- Modelled from the spec: the error frame-type tag, value 1. -/
def FrameTypeError : Int := 1

/-- Modelled from the spec: the message frame-type tag, value 2. -/
def FrameTypeMessage : Int := 2

/-- The byte sequence of the heartbeat sentinel string checked in
conn.go readLoop (bytes of the marker string used by nsqd heartbeats). -/
def heartbeatBytes : List Nat := [95, 104, 101, 97, 114, 116, 98, 101, 97, 116, 95]

/-- The byte sequence of the literal acknowledgment payload compared
against in the transport-upgrade steps of conn.go (bytes 79 75). -/
def okBytes : List Nat := [79, 75]

/-! ## Connection read loop (conn.go: readLoop) -/

/-- The atomic counters of a Conn that the read loop touches
(conn.go struct fields rdyCount, messagesInFlight, lastMsgTimestamp,
maxRdyCount, lastRdyCount). -/
structure ConnCounters where
  rdyCount : Int
  messagesInFlight : Int
  lastMsgTimestamp : Int
  maxRdyCount : Int
  lastRdyCount : Int
  deriving DecidableEq

/-- Reason carried by an invocation of the IO-error callback in the
read loop. -/
inductive IOErrReason
  | readFailed
  | nopSendFailed
  | decodeFailed
  | unknownFrameType (ftype : Int)
  deriving DecidableEq

/-- Observable effect of one read-loop iteration: which callback is
invoked, or a no-op command handed to the write path. -/
inductive ReadAction
  | ioErrorCB (r : IOErrReason)
  | heartbeatCB
  | sendNop
  | responseCB (data : List Nat)
  | messageCB (m : Message)
  | errorCB (data : List Nat)
  deriving DecidableEq

/-- Input consumed by one iteration of the read loop: either
ReadUnpackedResponse fails, or a frame arrives.  `nopOk` records
whether the SendCommand(Nop()) reply would succeed, consulted only in
the heartbeat branch. -/
inductive ReadInput
  | readFailed
  | frame (ftype : Int) (data : List Nat) (nopOk : Bool)
  deriving DecidableEq

/-- One iteration of readLoop (conn.go).  Returns the updated counters,
the list of actions performed in order, and whether the loop continues
to the next iteration (false models goto exit).  Mirrors the source:
stop-flag check, read, heartbeat special case, then the switch over
frame types whose default branch reports an unknown frame type without
leaving the loop. -/
def readLoopStep (stopFlag : Bool) (cs : ConnCounters) (now : Int)
    (inp : ReadInput) : ConnCounters × List ReadAction × Bool :=
  if stopFlag then (cs, [], false)
  else
    match inp with
    | .readFailed => (cs, [.ioErrorCB .readFailed], false)
    | .frame ftype data nopOk =>
      if ftype = FrameTypeResponse ∧ data = heartbeatBytes then
        if nopOk then (cs, [.heartbeatCB, .sendNop], true)
        else (cs, [.heartbeatCB, .sendNop, .ioErrorCB .nopSendFailed], false)
      else if ftype = FrameTypeResponse then (cs, [.responseCB data], true)
      else if ftype = FrameTypeMessage then
        match DecodeMessage data with
        | none => (cs, [.ioErrorCB .decodeFailed], false)
        | some m =>
          ({ cs with
              rdyCount := cs.rdyCount - 1
              messagesInFlight := cs.messagesInFlight + 1
              lastMsgTimestamp := now },
            [.messageCB m], true)
      else if ftype = FrameTypeError then (cs, [.errorCB data], true)
      else (cs, [.ioErrorCB (.unknownFrameType ftype)], true)

/-- C4 counterexample: the claim says an unknown frame type is fatal and
the read loop terminates just as for decode and write errors.  On frame
type 9 the loop reports the error via the IO-error callback but the
continue flag stays true (the switch default has no exit), whereas a
failed read terminates the loop (continue flag false). -/
theorem C4_unknown_frame_counterexample :
    (readLoopStep false ⟨0, 0, 0, 2500, 0⟩ 0 (.frame 9 [] true)).2.1
        = [.ioErrorCB (.unknownFrameType 9)]
      ∧ (readLoopStep false ⟨0, 0, 0, 2500, 0⟩ 0 (.frame 9 [] true)).2.2 = true
      ∧ (readLoopStep false ⟨0, 0, 0, 2500, 0⟩ 0 .readFailed).2.2 = false := by
  decide

/-- C4 (amended): for every frame whose 4-byte frame-type tag is none of
response, error, or message, the read loop reports an unknown frame type
error via the IO-error callback, but unlike decode and write errors it
does not terminate: the loop continues to the next iteration, and the
connection is torn down only indirectly if the callback receiver closes
it. -/
theorem C4_unknown_frame_reports_and_continues
    (cs : ConnCounters) (now : Int) (ft : Int) (d : List Nat) (nop : Bool)
    (hr : ft ≠ FrameTypeResponse) (hm : ft ≠ FrameTypeMessage)
    (he : ft ≠ FrameTypeError) :
    readLoopStep false cs now (.frame ft d nop)
      = (cs, [.ioErrorCB (.unknownFrameType ft)], true) := by
  simp [readLoopStep, hr, hm, he]

/-- Witness for C4 (amended) at frame type 9. -/
theorem C4_unknown_frame_reports_and_continues_witness :
    (9 : Int) ≠ FrameTypeResponse
      ∧ (9 : Int) ≠ FrameTypeMessage
      ∧ (9 : Int) ≠ FrameTypeError
      ∧ readLoopStep false ⟨1, 2, 3, 2500, 4⟩ 7 (.frame 9 [5] false)
          = (⟨1, 2, 3, 2500, 4⟩, [.ioErrorCB (.unknownFrameType 9)], true) :=
  ⟨by decide, by decide, by decide,
    C4_unknown_frame_reports_and_continues ⟨1, 2, 3, 2500, 4⟩ 7 9 [5] false
      (by decide) (by decide) (by decide)⟩

/-- C7: a response frame whose payload equals the heartbeat sentinel
invokes the heartbeat callback and answers with a no-op command through
the write path, without forwarding the frame to the response or message
callbacks; if sending the no-op fails, the IO-error callback fires and
the read loop terminates. -/
theorem C7_heartbeat_response (cs : ConnCounters) (now : Int) (nopOk : Bool) :
    readLoopStep false cs now (.frame FrameTypeResponse heartbeatBytes nopOk)
        = (cs,
            if nopOk then [.heartbeatCB, .sendNop]
            else [.heartbeatCB, .sendNop, .ioErrorCB .nopSendFailed],
            nopOk)
      ∧ (∀ d, ReadAction.responseCB d
          ∉ (readLoopStep false cs now
              (.frame FrameTypeResponse heartbeatBytes nopOk)).2.1)
      ∧ (∀ m, ReadAction.messageCB m
          ∉ (readLoopStep false cs now
              (.frame FrameTypeResponse heartbeatBytes nopOk)).2.1) := by
  cases nopOk <;> simp [readLoopStep]

/-- Witness for C7 at concrete counters, for both no-op send outcomes. -/
theorem C7_heartbeat_response_witness :
    readLoopStep false ⟨5, 1, 9, 2500, 5⟩ 11
        (.frame FrameTypeResponse heartbeatBytes true)
        = (⟨5, 1, 9, 2500, 5⟩, [.heartbeatCB, .sendNop], true)
      ∧ readLoopStep false ⟨5, 1, 9, 2500, 5⟩ 11
          (.frame FrameTypeResponse heartbeatBytes false)
          = (⟨5, 1, 9, 2500, 5⟩,
              [.heartbeatCB, .sendNop, .ioErrorCB .nopSendFailed], false)
      ∧ ReadAction.responseCB heartbeatBytes
          ∉ (readLoopStep false ⟨5, 1, 9, 2500, 5⟩ 11
              (.frame FrameTypeResponse heartbeatBytes true)).2.1 :=
  ⟨((C7_heartbeat_response ⟨5, 1, 9, 2500, 5⟩ 11 true).1 : _),
    ((C7_heartbeat_response ⟨5, 1, 9, 2500, 5⟩ 11 false).1 : _),
    (C7_heartbeat_response ⟨5, 1, 9, 2500, 5⟩ 11 true).2.1 heartbeatBytes⟩

/-- C9: on a message frame that decodes to m, the read loop increments
the in-flight counter by one, decrements the outstanding-credit (rdy)
counter by one, sets the last-message timestamp to the current time,
leaves every other counter unchanged, and then invokes only the message
callback; the loop continues. -/
theorem C9_message_frame_counters
    (cs : ConnCounters) (now : Int) (d : List Nat) (nop : Bool) (m : Message)
    (hdec : DecodeMessage d = some m) :
    readLoopStep false cs now (.frame FrameTypeMessage d nop)
      = ({ cs with
            rdyCount := cs.rdyCount - 1
            messagesInFlight := cs.messagesInFlight + 1
            lastMsgTimestamp := now },
          [.messageCB m], true) := by
  simp [readLoopStep, heartbeatBytes, FrameTypeMessage, FrameTypeResponse,
    FrameTypeError, hdec]

/-- Witness for C9 at the 26-zero-byte message frame, which decodes to
the all-zero message. -/
theorem C9_message_frame_counters_witness :
    DecodeMessage (List.replicate 26 0)
        = some ⟨List.replicate 16 0, [], 0, 0⟩
      ∧ readLoopStep false ⟨8, 3, 1, 2500, 8⟩ 42
          (.frame FrameTypeMessage (List.replicate 26 0) true)
          = (⟨7, 4, 42, 2500, 8⟩,
              [.messageCB ⟨List.replicate 16 0, [], 0, 0⟩], true) :=
  ⟨by decide,
    C9_message_frame_counters ⟨8, 3, 1, 2500, 8⟩ 42 (List.replicate 26 0) true
      ⟨List.replicate 16 0, [], 0, 0⟩ (by decide)⟩

/-! ## IDENTIFY transport upgrades (conn.go: identify, upgradeTLS,
upgradeDeflate, upgradeSnappy) -/

/-- Error values of the publish/connection layer; errNotConnected and
errStopped are the two exported Writer errors, errIdentify wraps any
handshake failure, errTransport stands for a transport read/dial failure, and
errEncode for a command that cannot be serialized. -/
inductive GoError
  | errNotConnected
  | errStopped
  | errIdentify
  | errTransport
  | errEncode
  deriving DecidableEq

/-- IdentifyResponse (conn.go): negotiated capabilities returned by the
broker after the IDENTIFY command. -/
structure IdentifyResponse where
  MaxRdyCount : Int
  TLSv1 : Bool
  Deflate : Bool
  Snappy : Bool
  deriving DecidableEq

/-- An inbound frame: 4-byte frame-type tag plus payload. -/
structure Frame where
  ftype : Int
  data : List Nat
  deriving DecidableEq

/-- The post-handshake read performed by each of upgradeTLS,
upgradeDeflate and upgradeSnappy (conn.go): reads exactly one unpacked
response from the stream; a read failure is an IO error, and any frame
that is not a response frame with the literal OK payload is an invalid
upgrade response, which identify wraps into a handshake (ErrIdentify)
failure of the whole connect attempt. -/
def upgradeCheck (frames : List Frame) : Except GoError (List Frame) :=
  match frames with
  | [] => .error .errTransport
  | f :: rest =>
    if f.ftype = FrameTypeResponse ∧ f.data = okBytes then .ok rest
    else .error .errIdentify

/-- The upgrade sequence of identify (conn.go): when granted by the
server, upgrade to TLS first, then Deflate, then Snappy, each step
consuming one OK response frame via upgradeCheck; the first failure
aborts the handshake. -/
def applyUpgrades (resp : IdentifyResponse) (frames : List Frame) :
    Except GoError (List Frame) :=
  (if resp.TLSv1 then upgradeCheck frames else .ok frames).bind fun fr1 =>
    (if resp.Deflate then upgradeCheck fr1 else .ok fr1).bind fun fr2 =>
      if resp.Snappy then upgradeCheck fr2 else .ok fr2

/-- Number of server-granted transport upgrades. -/
def upgradeCount (r : IdentifyResponse) : Nat :=
  (if r.TLSv1 then 1 else 0) + (if r.Deflate then 1 else 0)
    + (if r.Snappy then 1 else 0)

/-- Whether a frame is a response frame carrying the literal OK payload. -/
def isOKFrame (f : Frame) : Bool :=
  decide (f.ftype = FrameTypeResponse) && decide (f.data = okBytes)

/-- Iterated upgradeCheck, used to reason about applyUpgrades
uniformly. -/
def runUpgrades : Nat → List Frame → Except GoError (List Frame)
  | 0, frames => .ok frames
  | k + 1, frames =>
    match upgradeCheck frames with
    | .ok rest => runUpgrades k rest
    | .error e => .error e

theorem runUpgrades_one (fs : List Frame) :
    runUpgrades 1 fs = upgradeCheck fs := by
  cases h : upgradeCheck fs <;> simp [runUpgrades, h]

theorem runUpgrades_flag (b : Bool) (fs : List Frame) :
    (if b then upgradeCheck fs else .ok fs)
      = runUpgrades (if b then 1 else 0) fs := by
  cases b
  · simp [runUpgrades]
  · simpa using (runUpgrades_one fs).symm

theorem runUpgrades_add (a b : Nat) (fs : List Frame) :
    runUpgrades (a + b) fs = (runUpgrades a fs).bind (runUpgrades b) := by
  induction a generalizing fs with
  | zero => simp [runUpgrades, Except.bind]
  | succ a ih =>
    have h : a + 1 + b = (a + b) + 1 := by omega
    rw [h]
    cases hchk : upgradeCheck fs <;>
      simp [runUpgrades, hchk, ih, Except.bind]

theorem applyUpgrades_eq_runUpgrades (r : IdentifyResponse)
    (frames : List Frame) :
    applyUpgrades r frames = runUpgrades (upgradeCount r) frames := by
  rcases r with ⟨mx, t, d, s⟩
  dsimp only [upgradeCount]
  simp only [applyUpgrades, runUpgrades_flag]
  rw [add_assoc, runUpgrades_add]
  congr 1
  funext fr1
  rw [runUpgrades_add]

theorem runUpgrades_ok_char (k : Nat) (frames : List Frame) :
    (runUpgrades k frames = .ok (frames.drop k)
        ↔ k ≤ frames.length ∧ (frames.take k).all isOKFrame = true)
      ∧ (∀ rest, runUpgrades k frames = .ok rest → rest = frames.drop k) := by
  induction k generalizing frames with
  | zero => simp [runUpgrades]
  | succ k ih =>
    cases frames with
    | nil =>
      simp [runUpgrades, upgradeCheck]
    | cons f fs =>
      by_cases hok : f.ftype = FrameTypeResponse ∧ f.data = okBytes
      · have hchk : upgradeCheck (f :: fs) = .ok fs := by
          simp [upgradeCheck, hok]
        have hframe : isOKFrame f = true := by
          simp [isOKFrame, hok.1, hok.2]
        constructor
        · rw [show runUpgrades (k + 1) (f :: fs)
              = runUpgrades k fs by simp [runUpgrades, hchk]]
          rw [show (f :: fs).drop (k + 1) = fs.drop k from rfl]
          rw [(ih fs).1]
          simp [hframe, Nat.succ_le_succ_iff]
        · intro rest hr
          rw [show runUpgrades (k + 1) (f :: fs)
              = runUpgrades k fs by simp [runUpgrades, hchk]] at hr
          exact (ih fs).2 rest hr
      · have hchk : upgradeCheck (f :: fs) = .error .errIdentify := by
          simp only [upgradeCheck]
          rw [if_neg hok]
        have hframe : isOKFrame f = false := by
          rcases not_and_or.mp hok with h | h <;> simp [isOKFrame, h]
        constructor
        · rw [show runUpgrades (k + 1) (f :: fs)
              = .error .errIdentify by simp [runUpgrades, hchk]]
          simp [hframe]
        · intro rest hr
          rw [show runUpgrades (k + 1) (f :: fs)
              = .error .errIdentify by simp [runUpgrades, hchk]] at hr
          exact absurd hr (by simp)

/-- C6: for each server-granted transport upgrade, applied in the fixed
order TLS then compression, the client must read exactly one further
response frame whose payload is literally OK before the upgrade chain
succeeds: the chain succeeds, consuming exactly one frame per granted
upgrade, if and only if each of those frames is an OK response frame;
any other frame type or payload fails the connect attempt, and success
consumes exactly upgradeCount frames. -/
theorem C6_upgrade_handshake (r : IdentifyResponse) (frames : List Frame) :
    (applyUpgrades r frames = .ok (frames.drop (upgradeCount r))
        ↔ upgradeCount r ≤ frames.length
          ∧ (frames.take (upgradeCount r)).all isOKFrame = true)
      ∧ (∀ rest, applyUpgrades r frames = .ok rest
          → rest = frames.drop (upgradeCount r)) := by
  rw [applyUpgrades_eq_runUpgrades]
  exact runUpgrades_ok_char (upgradeCount r) frames

/-- Witness for C6: TLS and Deflate granted, stream holds two OK
response frames then an error frame; the chain succeeds consuming
exactly the two OK frames, and with a non-OK second frame it fails. -/
theorem C6_upgrade_handshake_witness :
    applyUpgrades ⟨2500, true, true, false⟩
        [⟨FrameTypeResponse, okBytes⟩, ⟨FrameTypeResponse, okBytes⟩,
          ⟨FrameTypeError, [70]⟩]
      = .ok [⟨FrameTypeError, [70]⟩] :=
  (C6_upgrade_handshake ⟨2500, true, true, false⟩
      [⟨FrameTypeResponse, okBytes⟩, ⟨FrameTypeResponse, okBytes⟩,
        ⟨FrameTypeError, [70]⟩]).1.mpr (by decide)

/-! ## Writer publish/transaction layer (nsq_writer) -/

/-- Modelled from the spec: the connection states Init, Connected,
Disconnected (the Go State constants live in a source file that is not
under src; spec section 3 lists exactly these three states). -/
inductive ConnState
  | StateInit
  | StateConnected
  | StateDisconnected
  deriving DecidableEq

/-- Outbound protocol command (spec section 3): a name with parameter
blocks and an optional body; the publish layer treats it as an opaque
value, so only the constructors the Writer uses are modelled. -/
inductive Command
  | pub (topic : List Nat) (body : List Nat)
  | mpub (topic : List Nat) (bodies : List (List Nat))
  | nop
  deriving DecidableEq

/-- Publish command constructor (go-nsq): never fails. -/
def Publish (topic body : List Nat) : Command :=
  .pub topic body

/-- Modelled from the spec: the MultiPublish command constructor lives in
a source file not under src; the spec says a multi-publish batch fails
fast if it cannot be encoded, and the only encoding limit in the wire
format is the 4-byte length prefixes of the body count and of each body,
so encoding fails exactly when one of those overflows. -/
def MultiPublish (topic : List Nat) (bodies : List (List Nat)) :
    Except GoError Command :=
  if bodies.length < 2 ^ 32 ∧ ∀ b ∈ bodies, b.length < 2 ^ 32 then
    .ok (.mpub topic bodies)
  else .error .errEncode

/-- WriterTransaction (nsq_writer): one outstanding publish — the
command, the result frame type, data and error filled in on resolution.
`tid` models the identity of the Go heap object so that exactly-once
resolution is expressible; `FrameType` starts at -1 as in
sendCommandAsync. -/
structure WriterTransaction where
  tid : Nat
  cmd : Command
  FrameType : Int
  Data : List Nat
  Error : Option GoError
  deriving DecidableEq

/-- State of the Writer router goroutine: the FIFO pending-transaction
sequence, the resolutions delivered so far (in delivery order), whether
popTransaction hit an out-of-bounds index (Go panic), whether the loop
reached its exit label, and whether w.close() was invoked. -/
structure RouterState where
  transactions : List WriterTransaction
  finished : List WriterTransaction
  panicked : Bool
  exited : Bool
  connClosed : Bool
  deriving DecidableEq

/-- One event consumed by the router select (nsq_writer router):
an incoming transaction (with the outcome of conn.SendCommand), a
response or error frame routed from the connection callbacks, a
heartbeat, an IO error, the connection close notification, or the
Writer exit signal. -/
inductive RouterEvent
  | transaction (t : WriterTransaction) (sendOk : Bool)
  | response (data : List Nat)
  | errorFrame (data : List Nat)
  | heartbeat
  | ioError
  | connCloseNotify
  | exitSignal
  deriving DecidableEq

/-- popTransaction (nsq_writer): reads transactions[0] with no emptiness
guard — on an empty pending sequence the Go code panics with an index
out of range, modelled by setting `panicked` — removes it, sets its
frame type and data from the inbound frame, sets its error to nil, and
delivers it (finish). -/
def popTransaction (s : RouterState) (frameType : Int) (data : List Nat) :
    RouterState :=
  match s.transactions with
  | [] => { s with panicked := true }
  | t :: rest =>
    { s with
        transactions := rest
        finished := s.finished
          ++ [{ t with FrameType := frameType, Data := data, Error := none }] }

/-- One iteration of the router select loop (nsq_writer router).  A
transaction is appended to the pending FIFO before SendCommand, whose
failure closes the connection; response and error frames pop the oldest
pending transaction; an IO error closes the connection; the close
notification and the exit signal leave the loop. -/
def routerStep (s : RouterState) (e : RouterEvent) : RouterState :=
  if s.exited || s.panicked then s
  else
    match e with
    | .transaction t sendOk =>
      let s1 := { s with transactions := s.transactions ++ [t] }
      if sendOk then s1 else { s1 with connClosed := true }
    | .response d => popTransaction s FrameTypeResponse d
    | .errorFrame d => popTransaction s FrameTypeError d
    | .heartbeat => s
    | .ioError => { s with connClosed := true }
    | .connCloseNotify => { s with exited := true }
    | .exitSignal => { s with exited := true }

/-- The router state at goroutine start: no pending transactions. -/
def initialRouterState : RouterState :=
  ⟨[], [], false, false, false⟩

/-- The router loop over a finite event sequence. -/
def runRouter (s : RouterState) (es : List RouterEvent) : RouterState :=
  es.foldl routerStep s

/-- The transactions enqueued by an event sequence, in send order. -/
def sendsOf : List RouterEvent → List WriterTransaction
  | [] => []
  | .transaction t _ :: es => t :: sendsOf es
  | _ :: es => sendsOf es

/-- The response/error frames of an event sequence, in arrival order,
as (frame type, payload) pairs. -/
def framesOf : List RouterEvent → List (Int × List Nat)
  | [] => []
  | .response d :: es => (FrameTypeResponse, d) :: framesOf es
  | .errorFrame d :: es => (FrameTypeError, d) :: framesOf es
  | _ :: es => framesOf es

/-- Events of the steady publish phase: transactions whose SendCommand
succeeds, inbound response/error frames, and heartbeats. -/
def pubEventB : RouterEvent → Bool
  | .transaction _ sendOk => sendOk
  | .response _ => true
  | .errorFrame _ => true
  | .heartbeat => true
  | _ => false

/-- The FIFO protocol precondition: starting from `pending` outstanding
commands, every response or error frame answers a previously sent
command, i.e. in every prefix the number of frames received never
exceeds the number of commands sent. -/
def wfFromB : Nat → List RouterEvent → Bool
  | _, [] => true
  | pending, .transaction _ _ :: es => wfFromB (pending + 1) es
  | pending, .response _ :: es => decide (0 < pending) && wfFromB (pending - 1) es
  | pending, .errorFrame _ :: es => decide (0 < pending) && wfFromB (pending - 1) es
  | pending, _ :: es => wfFromB pending es

/-- How popTransaction resolves a pending transaction with a frame:
frame type and data are copied from the frame, the error is cleared. -/
def resolveT (t : WriterTransaction) (f : Int × List Nat) :
    WriterTransaction :=
  { t with FrameType := f.1, Data := f.2, Error := none }

theorem runRouter_spec (es : List RouterEvent)
    (pend fin : List WriterTransaction) (cc : Bool)
    (hpub : es.all pubEventB = true) (hwf : wfFromB pend.length es = true) :
    runRouter ⟨pend, fin, false, false, cc⟩ es
      = ⟨(pend ++ sendsOf es).drop (framesOf es).length,
          fin ++ List.zipWith resolveT (pend ++ sendsOf es) (framesOf es),
          false, false, cc⟩ := by
  induction es generalizing pend fin with
  | nil => simp [runRouter, sendsOf, framesOf]
  | cons e es ih =>
    rw [List.all_cons, Bool.and_eq_true] at hpub
    obtain ⟨hpe, hpes⟩ := hpub
    cases e with
    | transaction t sendOk =>
      have hsend : sendOk = true := hpe
      subst hsend
      have hwfe : wfFromB (pend ++ [t]).length es = true := by
        simpa [wfFromB] using hwf
      have hstep :
          runRouter ⟨pend, fin, false, false, cc⟩ (.transaction t true :: es)
            = runRouter ⟨pend ++ [t], fin, false, false, cc⟩ es := by
        simp [runRouter, routerStep]
      rw [hstep, ih _ _ hpes hwfe]
      simp [sendsOf, framesOf, List.append_assoc]
    | response d =>
      rw [show wfFromB pend.length (.response d :: es)
          = (decide (0 < pend.length) && wfFromB (pend.length - 1) es)
          from rfl, Bool.and_eq_true] at hwf
      obtain ⟨hpos, hwfes⟩ := hwf
      cases pend with
      | nil => simp at hpos
      | cons p ps =>
        have hstep :
            runRouter ⟨p :: ps, fin, false, false, cc⟩ (.response d :: es)
              = runRouter
                  ⟨ps, fin ++ [resolveT p (FrameTypeResponse, d)],
                    false, false, cc⟩ es := by
          simp [runRouter, routerStep, popTransaction, resolveT]
        have hwfes2 : wfFromB ps.length es = true := by
          simpa using hwfes
        rw [hstep, ih _ _ hpes hwfes2]
        simp [sendsOf, framesOf, List.append_assoc]
    | errorFrame d =>
      rw [show wfFromB pend.length (.errorFrame d :: es)
          = (decide (0 < pend.length) && wfFromB (pend.length - 1) es)
          from rfl, Bool.and_eq_true] at hwf
      obtain ⟨hpos, hwfes⟩ := hwf
      cases pend with
      | nil => simp at hpos
      | cons p ps =>
        have hstep :
            runRouter ⟨p :: ps, fin, false, false, cc⟩ (.errorFrame d :: es)
              = runRouter
                  ⟨ps, fin ++ [resolveT p (FrameTypeError, d)],
                    false, false, cc⟩ es := by
          simp [runRouter, routerStep, popTransaction, resolveT]
        have hwfes2 : wfFromB ps.length es = true := by
          simpa using hwfes
        rw [hstep, ih _ _ hpes hwfes2]
        simp [sendsOf, framesOf, List.append_assoc]
    | heartbeat =>
      have hstep :
          runRouter ⟨pend, fin, false, false, cc⟩ (.heartbeat :: es)
            = runRouter ⟨pend, fin, false, false, cc⟩ es := by
        simp [runRouter, routerStep]
      rw [hstep, ih _ _ hpes (by simpa [wfFromB] using hwf)]
      simp [sendsOf, framesOf]
    | ioError => simp [pubEventB] at hpe
    | connCloseNotify => simp [pubEventB] at hpe
    | exitSignal => simp [pubEventB] at hpe

/-- C1: for every sequence of publish transactions enqueued on one
Writer connection, each inbound response or error frame resolves exactly
the oldest pending transaction, setting its frame type and data to that
frame and its error to nil, so over any interleaving of sends and frames
respecting the FIFO protocol precondition, the i-th frame resolves the
i-th sent transaction: the delivered resolutions are exactly the sent
transactions, in send order, paired with the frames in arrival order,
and the pending sequence is what remains of the sends. -/
theorem C1_fifo_matching (es : List RouterEvent)
    (hpub : es.all pubEventB = true) (hwf : wfFromB 0 es = true) :
    (runRouter initialRouterState es).finished
        = List.zipWith resolveT (sendsOf es) (framesOf es)
      ∧ (runRouter initialRouterState es).transactions
        = (sendsOf es).drop (framesOf es).length := by
  have h := runRouter_spec es [] [] false hpub hwf
  rw [show initialRouterState = ⟨[], [], false, false, false⟩ from rfl, h]
  simp

/-- A sample publish transaction used by concrete runs. -/
def wtx (n : Nat) : WriterTransaction :=
  ⟨n, Publish [110] [n], -1, [], none⟩

/-- A sample interleaved event sequence: send 1, send 2, response,
send 3, error frame. -/
def esC1 : List RouterEvent :=
  [.transaction (wtx 1) true, .transaction (wtx 2) true,
    .response [79, 75], .transaction (wtx 3) true, .errorFrame [69]]

/-- Witness for C1: on the sample interleaving, the response resolves
transaction 1, the error frame resolves transaction 2, and
transaction 3 stays pending. -/
theorem C1_fifo_matching_witness :
    esC1.all pubEventB = true
      ∧ wfFromB 0 esC1 = true
      ∧ (runRouter initialRouterState esC1).finished
          = [⟨1, Publish [110] [1], FrameTypeResponse, [79, 75], none⟩,
              ⟨2, Publish [110] [2], FrameTypeError, [69], none⟩]
      ∧ (runRouter initialRouterState esC1).transactions = [wtx 3] :=
  ⟨by decide, by decide,
    (C1_fifo_matching esC1 (by decide) (by decide)).1,
    (C1_fifo_matching esC1 (by decide) (by decide)).2⟩

/-- C10: popTransaction has the implicit precondition that the pending
sequence is non-empty — on an empty sequence it hits the out-of-bounds
access (runtime panic, the panicked flag) instead of returning an error,
it never panics on a non-empty sequence, and under the FIFO protocol
precondition that every response answers a previously sent command the
panic branch is unreachable over any run. -/
theorem C10_popTransaction_precondition :
    (∀ (s : RouterState) (ft : Int) (d : List Nat),
        s.transactions = []
        → popTransaction s ft d = { s with panicked := true })
      ∧ (∀ (s : RouterState) (ft : Int) (d : List Nat),
          s.transactions ≠ []
          → (popTransaction s ft d).panicked = s.panicked)
      ∧ (∀ es, es.all pubEventB = true → wfFromB 0 es = true
          → (runRouter initialRouterState es).panicked = false) := by
  refine ⟨?_, ?_, ?_⟩
  · intro s ft d h
    simp [popTransaction, h]
  · intro s ft d h
    rcases s with ⟨ts, fin, p, ex, cc⟩
    cases ts with
    | nil => simp at h
    | cons t rest => simp [popTransaction]
  · intro es hpub hwf
    have h := runRouter_spec es [] [] false hpub hwf
    rw [show initialRouterState = ⟨[], [], false, false, false⟩ from rfl, h]

/-- Witness for C10: the empty-pending response panics, a non-empty pop
does not, and the sample run never panics. -/
theorem C10_popTransaction_precondition_witness :
    popTransaction ⟨[], [], false, false, false⟩ FrameTypeResponse [79, 75]
        = ⟨[], [], true, false, false⟩
      ∧ (popTransaction ⟨[wtx 1], [], false, false, false⟩ 0 []).panicked
          = false
      ∧ (runRouter initialRouterState esC1).panicked = false :=
  ⟨C10_popTransaction_precondition.1 ⟨[], [], false, false, false⟩
      FrameTypeResponse [79, 75] rfl,
    C10_popTransaction_precondition.2.1 ⟨[wtx 1], [], false, false, false⟩
      0 [] (by decide),
    C10_popTransaction_precondition.2.2 esC1 (by decide) (by decide)⟩

/-! ## Shutdown transaction cleanup (nsq_writer: transactionCleanup) -/

/-- Resolution applied at shutdown: the error field is set to the
not connected error. -/
def setNC (t : WriterTransaction) : WriterTransaction :=
  { t with Error := some GoError.errNotConnected }

/-- The second loop of transactionCleanup (nsq_writer): drain senders
still parked on the transaction channel one at a time, resolving each
with the not connected error, spinning until the concurrent-writer
counter — here, the number of parked senders left — reaches zero. -/
def drainParked : List WriterTransaction → List WriterTransaction
  | [] => []
  | t :: rest => setNC t :: drainParked rest

/-- transactionCleanup (nsq_writer): resolves every transaction still in
the pending sequence with the not connected error, empties the
sequence, then drains parked senders until none remain. -/
def transactionCleanup (pending parked : List WriterTransaction) :
    List WriterTransaction :=
  pending.map setNC ++ drainParked parked

/-- Every resolution delivered over the life of one router goroutine:
those delivered by frames while running, then those delivered by
transactionCleanup at exit, where `parked` are the senders that raced
with shutdown and are still blocked on the transaction channel. -/
def writerRun (es : List RouterEvent)
    (parked : List WriterTransaction) : List WriterTransaction :=
  (runRouter initialRouterState es).finished
    ++ transactionCleanup (runRouter initialRouterState es).transactions
        parked

theorem drainParked_eq_map (l : List WriterTransaction) :
    drainParked l = l.map setNC := by
  induction l with
  | nil => rfl
  | cons t rest ih => simp [drainParked, ih]

theorem map_tid_zipWith (S : List WriterTransaction)
    (F : List (Int × List Nat)) :
    (List.zipWith resolveT S F).map WriterTransaction.tid
      = (S.take F.length).map WriterTransaction.tid := by
  induction S generalizing F with
  | nil => simp
  | cons s ss ih =>
    cases F with
    | nil => simp
    | cons f fs => simp [resolveT, ih]

theorem map_tid_setNC (l : List WriterTransaction) :
    (l.map setNC).map WriterTransaction.tid = l.map WriterTransaction.tid := by
  induction l with
  | nil => rfl
  | cons t rest ih => simp [setNC, ih]

/-- C2: when the router loop exits, every transaction still in the
pending FIFO sequence is resolved with the not connected error, every
parked sender is drained and resolved with the same error (the cleanup
loop runs until the concurrent-sender count reaches zero, i.e. the
parked list is exhausted), and consequently every transaction ever
created — resolved by a frame, left pending, or parked — receives
exactly one resolution. -/
theorem C2_shutdown_cleanup (es : List RouterEvent)
    (parked : List WriterTransaction)
    (hpub : es.all pubEventB = true) (hwf : wfFromB 0 es = true) :
    writerRun es parked
        = List.zipWith resolveT (sendsOf es) (framesOf es)
          ++ ((sendsOf es).drop (framesOf es).length).map setNC
          ++ parked.map setNC
      ∧ (∀ t ∈ transactionCleanup
            (runRouter initialRouterState es).transactions parked,
          t.Error = some GoError.errNotConnected)
      ∧ (writerRun es parked).map WriterTransaction.tid
          = (sendsOf es).map WriterTransaction.tid
            ++ parked.map WriterTransaction.tid
      ∧ (∀ t ∈ sendsOf es ++ parked,
          ((sendsOf es ++ parked).map WriterTransaction.tid).Nodup
          → ((writerRun es parked).map WriterTransaction.tid).count t.tid
              = 1) := by
  have h := runRouter_spec es [] [] false hpub hwf
  rw [show (⟨[], [], false, false, false⟩ : RouterState)
    = initialRouterState from rfl] at h
  have hrun :
      writerRun es parked
        = List.zipWith resolveT (sendsOf es) (framesOf es)
          ++ ((sendsOf es).drop (framesOf es).length).map setNC
          ++ parked.map setNC := by
    unfold writerRun
    rw [h]
    simp [transactionCleanup, drainParked_eq_map, List.append_assoc]
  have hclean : ∀ t ∈ transactionCleanup
      (runRouter initialRouterState es).transactions parked,
      t.Error = some GoError.errNotConnected := by
    intro t ht
    rw [h] at ht
    simp only [transactionCleanup, drainParked_eq_map, List.mem_append,
      List.mem_map] at ht
    rcases ht with ⟨u, _, hu⟩ | ⟨u, _, hu⟩ <;> rw [← hu] <;> rfl
  have htid :
      (writerRun es parked).map WriterTransaction.tid
        = (sendsOf es).map WriterTransaction.tid
          ++ parked.map WriterTransaction.tid := by
    rw [hrun]
    rw [List.map_append, List.map_append, map_tid_zipWith,
      map_tid_setNC, map_tid_setNC, ← List.map_append,
      List.take_append_drop]
  refine ⟨hrun, hclean, htid, ?_⟩
  intro t ht hnd
  rw [htid, ← List.map_append]
  exact List.count_eq_one_of_mem hnd (List.mem_map_of_mem _ ht)

/-- Witness for C2: the sample run with one parked sender; frames
resolve transactions 1 and 2, cleanup resolves the still-pending
transaction 3 and the parked transaction 9 with the not connected
error, and transaction 3 is resolved exactly once. -/
theorem C2_shutdown_cleanup_witness :
    esC1.all pubEventB = true
      ∧ wfFromB 0 esC1 = true
      ∧ writerRun esC1 [wtx 9]
          = [⟨1, Publish [110] [1], FrameTypeResponse, [79, 75], none⟩,
              ⟨2, Publish [110] [2], FrameTypeError, [69], none⟩,
              ⟨3, Publish [110] [3], -1, [], some GoError.errNotConnected⟩,
              ⟨9, Publish [110] [9], -1, [], some GoError.errNotConnected⟩]
      ∧ ((writerRun esC1 [wtx 9]).map WriterTransaction.tid).count 3 = 1 :=
  ⟨by decide, by decide,
    (C2_shutdown_cleanup esC1 [wtx 9] (by decide) (by decide)).1,
    (C2_shutdown_cleanup esC1 [wtx 9] (by decide) (by decide)).2.2.2
      (wtx 3) (by decide) (by decide)⟩

/-! ## Writer connect / publish entry points (nsq_writer:
connect, sendCommandAsync, Publish, MultiPublish) -/

/-- The Writer fields consulted by connect and sendCommandAsync:
the one-shot stop flag, the connection state, whether the exit channel
has been closed (Stop), whether the router goroutine is receiving on the
transaction channel, and whether a dial plus IDENTIFY on the configured
address would succeed (the network environment). -/
structure WriterModel where
  stopFlag : Bool
  state : ConnState
  exitClosed : Bool
  routerRunning : Bool
  dialOk : Bool
  deriving DecidableEq

/-- connect (nsq_writer): a stopped Writer yields ErrStopped; otherwise
the state is compare-and-swapped from Init to Connected, and a CAS
failure yields ErrNotConnected leaving everything unchanged; a dial or
IDENTIFY failure stores Init back and returns the IO error; on success
the router goroutine is started. -/
def connect (w : WriterModel) : Except GoError Unit × WriterModel :=
  if w.stopFlag then (.error .errStopped, w)
  else if w.state ≠ .StateInit then (.error .errNotConnected, w)
  else if w.dialOk then
    (.ok (), { w with state := .StateConnected, routerRunning := true })
  else (.error .errTransport, { w with state := .StateInit })

/-- Outcome of offering a transaction on the transaction channel: the
transaction handed to the router together with the Writer as updated by
the lazy connect, a synchronous failure, or a blocked send. -/
inductive SendOutcome
  | enqueued (t : WriterTransaction) (w : WriterModel)
  | failed (e : GoError)
  | blocked
  deriving DecidableEq

/-- sendCommandAsync (nsq_writer): connects lazily when the state is not
Connected, then offers the new transaction in a select between the
transaction channel and the exit channel.  With the router receiving the
transaction is enqueued; with the router gone, a closed exit channel
yields ErrStopped and an open one blocks.  (The Go select picks
nondeterministically when both are ready; the after-stop theorems assume
the router has exited, where only the exit branch is ready.) -/
def sendCommandAsync (w : WriterModel) (cmd : Command) : SendOutcome :=
  match (if w.state ≠ .StateConnected then connect w else (.ok (), w)) with
  | (.error e, _) => .failed e
  | (.ok _, w1) =>
    if w1.routerRunning then .enqueued ⟨0, cmd, -1, [], none⟩ w1
    else if w1.exitClosed then .failed .errStopped
    else .blocked

/-- PublishAsync (nsq_writer): sendCommandAsync of a publish command. -/
def PublishAsync (w : WriterModel) (topic body : List Nat) : SendOutcome :=
  sendCommandAsync w (Publish topic body)

/-- MultiPublishAsync (nsq_writer): encodes the batch, failing fast on
an encoding error, then sendCommandAsync. -/
def MultiPublishAsync (w : WriterModel) (topic : List Nat)
    (bodies : List (List Nat)) : SendOutcome :=
  match MultiPublish topic bodies with
  | .error e => .failed e
  | .ok cmd => sendCommandAsync w cmd

/-- sendCommand (nsq_writer): synchronous wrapper; an async failure
returns (-1, nil, err) immediately, otherwise the caller blocks on the
done channel for the router-delivered result, which lies outside this
function and is modelled by none. -/
def sendCommand (w : WriterModel) (cmd : Command) :
    Option (Int × List Nat × GoError) :=
  match sendCommandAsync w cmd with
  | .failed e => some (-1, [], e)
  | _ => none

/-- Writer.Publish (nsq_writer): synchronous publish. -/
def WriterModel.Publish (w : WriterModel) (topic body : List Nat) :
    Option (Int × List Nat × GoError) :=
  sendCommand w (NsqEvents.Publish topic body)

/-- Writer.MultiPublish (nsq_writer): synchronous multi-publish; a batch
that cannot be encoded returns its encoding error before any send. -/
def WriterModel.MultiPublish (w : WriterModel) (topic : List Nat)
    (bodies : List (List Nat)) : Option (Int × List Nat × GoError) :=
  match NsqEvents.MultiPublish topic bodies with
  | .error e => some (-1, [], e)
  | .ok cmd => sendCommand w cmd

theorem sendCommandAsync_after_stop (w : WriterModel) (cmd : Command)
    (hstop : w.stopFlag = true) (hexit : w.exitClosed = true)
    (hrouter : w.routerRunning = false) :
    sendCommandAsync w cmd = .failed .errStopped := by
  rcases w with ⟨sf, st, ec, rr, dk⟩
  subst hstop hexit hrouter
  by_cases hc : st = ConnState.StateConnected <;>
    simp [sendCommandAsync, connect, hc]

/-- C5: once Stop() has completed — the stop flag is set, the exit
channel is closed, and the router goroutine has exited — every
subsequent Publish, MultiPublish, PublishAsync, or MultiPublishAsync
call fails with the stopped error: it neither blocks nor enqueues a
transaction.  The batch-encodability hypothesis rules out the
MultiPublish encoding-error path, which returns before the writer state
is ever consulted. -/
theorem C5_publish_after_stop (w : WriterModel) (topic body : List Nat)
    (bodies : List (List Nat))
    (hstop : w.stopFlag = true) (hexit : w.exitClosed = true)
    (hrouter : w.routerRunning = false)
    (henc : ∃ cmd, MultiPublish topic bodies = .ok cmd) :
    PublishAsync w topic body = .failed .errStopped
      ∧ MultiPublishAsync w topic bodies = .failed .errStopped
      ∧ w.Publish topic body = some (-1, [], .errStopped)
      ∧ w.MultiPublish topic bodies = some (-1, [], .errStopped) := by
  obtain ⟨cmd, hcmd⟩ := henc
  have hs : ∀ c, sendCommandAsync w c = .failed .errStopped :=
    fun c => sendCommandAsync_after_stop w c hstop hexit hrouter
  refine ⟨?_, ?_, ?_, ?_⟩
  · simp [PublishAsync, hs]
  · simp [MultiPublishAsync, hcmd, hs]
  · simp [WriterModel.Publish, sendCommand, hs]
  · simp [WriterModel.MultiPublish, hcmd, sendCommand, hs]

/-- Witness for C5: a stopped Writer in the Disconnected state, a
two-body batch. -/
theorem C5_publish_after_stop_witness :
    PublishAsync ⟨true, .StateDisconnected, true, false, true⟩ [116] [98]
        = .failed .errStopped
      ∧ MultiPublishAsync ⟨true, .StateDisconnected, true, false, true⟩
          [116] [[98], [99]] = .failed .errStopped
      ∧ WriterModel.Publish ⟨true, .StateDisconnected, true, false, true⟩
          [116] [98] = some (-1, [], .errStopped)
      ∧ WriterModel.MultiPublish
          ⟨true, .StateDisconnected, true, false, true⟩ [116] [[98], [99]]
          = some (-1, [], .errStopped) :=
  C5_publish_after_stop ⟨true, .StateDisconnected, true, false, true⟩
    [116] [98] [[98], [99]] rfl rfl rfl
    ⟨.mpub [116] [[98], [99]], by decide⟩

/-- C8 counterexample: a connect attempt on a stopped Writer whose state
is Connected (state not Init) fails with the stopped error, not the not
connected error, refuting the claim that every connect attempt in a
non-Init state fails with the not connected error. -/
theorem C8_connect_counterexample :
    (connect ⟨true, .StateConnected, true, false, true⟩).1
        = .error .errStopped
      ∧ (connect ⟨true, .StateConnected, true, false, true⟩).1
        ≠ .error .errNotConnected := by
  decide

/-- C8 (amended): provided the Writer has not been stopped (otherwise
the stopped error takes precedence), a connect attempt in a state other
than Init fails with the not connected error and leaves the Writer
unchanged; a successful connect is the transition Init to Connected,
after which a further connect attempt fails with the not connected
error, so only one Init-to-Connected transition can be in effect at a
time. -/
theorem C8_connect_state_machine (w : WriterModel)
    (hstop : w.stopFlag = false) :
    (w.state ≠ .StateInit → connect w = (.error .errNotConnected, w))
      ∧ (∀ r w1, connect w = (.ok r, w1)
          → w.state = .StateInit
            ∧ w1.state = .StateConnected
            ∧ (connect w1).1 = .error .errNotConnected) := by
  rcases w with ⟨sf, st, ec, rr, dk⟩
  subst hstop
  constructor
  · intro hne
    simp [connect, hne]
  · intro r w1 hok
    by_cases hst : st = ConnState.StateInit
    · subst hst
      by_cases hdk : dk = true
      · subst hdk
        simp only [connect] at hok
        simp at hok
        subst hok
        exact ⟨rfl, rfl, by simp [connect]⟩
      · simp only [connect] at hok
        simp [hdk] at hok
    · simp only [connect] at hok
      simp [hst] at hok

/-- Witness for C8 (amended): a non-stopped Writer in the Disconnected
state is refused with the not connected error and left unchanged, and
after a successful connect from Init a second connect attempt is
refused. -/
theorem C8_connect_state_machine_witness :
    connect ⟨false, .StateDisconnected, false, false, true⟩
        = (.error .errNotConnected,
            ⟨false, .StateDisconnected, false, false, true⟩)
      ∧ ((⟨false, .StateInit, false, false, true⟩ : WriterModel).state
            = .StateInit
          ∧ (⟨false, .StateConnected, false, true, true⟩
              : WriterModel).state = .StateConnected
          ∧ (connect ⟨false, .StateConnected, false, true, true⟩).1
            = .error .errNotConnected) :=
  ⟨(C8_connect_state_machine ⟨false, .StateDisconnected, false, false, true⟩
      rfl).1 (by decide),
    (C8_connect_state_machine ⟨false, .StateInit, false, false, true⟩
      rfl).2 () ⟨false, .StateConnected, false, true, true⟩ (by decide)⟩

end NsqEvents
